import Mathlib

/-!
Verification development for the iroh relay server slice.

The definitions below are shallow embeddings of the Rust sources:

* `src/iroh-relay/src/server/http_server.rs` — the HTTP upgrade gateway
  (`RelayService::call`, `RelayService::call_client_conn`,
  `Inner::not_found_fn`, `Inner::default_response`,
  `Inner::relay_connection_handler`, `Inner::accept`);
* `src/iroh-net/src/bin/derper.rs` — the derper binary's auxiliary HTTP
  handlers (`serve_no_content_handler`, `is_challenge_char`, `root_handler`,
  `probe_handler`, `robots_handler`, `TLS_HEADERS`) and the STUN listener
  loop (`server_stun_listener`);
* `src/iroh-dns-server/src/store/signed_packets.rs` and
  `src/iroh-dns-server/src/store/moka.rs` — the two signed-packet stores.

Machine integers are modelled as `Nat` with explicit reductions modulo
`2 ^ 32` where overflow matters.  Fallible code returns `Except`.  A few
constants and helpers live outside the provided sources (the relay path
constants, `Protocol::parse_header`, the supported WebSocket version,
`stun::is`); those are modelled from the specification and are marked as
such in their doc comments.
-/

/-! ## HTTP data model -/

/-- An HTTP response as far as the claims are concerned: a status code, an
ordered list of headers (name, value), and a body.  Mirrors hyper's
`Response<BytesBody>` as constructed through `http::response::Builder`,
where `.header(k, v)` appends a (name, value) pair. -/
structure HttpResponse where
  status : Nat
  headers : List (String × String)
  body : String
deriving DecidableEq, Repr

/-- The relay protocols negotiated via the `Upgrade` header
(`crate::http::Protocol`). -/
inductive Protocol where
  | relay
  | websocket
deriving DecidableEq, Repr

/-- Modelled from the spec: `Protocol::parse_header` recognises the
`Upgrade` header values `derp` and `websocket` (spec 4.G: a GET with
`Upgrade: derp` or `Upgrade: websocket` is switched). -/
def Protocol.parse_header (v : String) : Option Protocol :=
  if v = "derp" then some Protocol.relay
  else if v = "websocket" then some Protocol.websocket
  else none

/-- Modelled from the spec: `Protocol::upgrade_header`, the value echoed in
the 101 response's `Upgrade` header. -/
def Protocol.upgrade_header : Protocol → String
  | Protocol.relay => "derp"
  | Protocol.websocket => "websocket"

/-- Modelled from the spec: the supported WebSocket version is `13`
(spec 4.G / 6: WebSocket version 13). -/
def SUPPORTED_WEBSOCKET_VERSION : String := "13"

/-- Modelled from the spec: the relay upgrade endpoint path (spec 6:
`GET /relay`). -/
def RELAY_PATH : String := "/relay"

/-- Modelled from the spec: the legacy relay upgrade endpoint path (spec 6:
`GET /derp`). -/
def LEGACY_RELAY_PATH : String := "/derp"

/-! ## RFC 6455 accept-key derivation (SHA-1 and base64)

`tungstenite::handshake::derive_accept_key` is an external library
function; per RFC 6455 it is
`base64(sha1(key ++ "258EAFA5-E914-47DA-95CA-C5AB0DC85B11"))`.  It is
implemented here concretely so that it can be evaluated; the RFC 6455
worked example is checked below. -/

/-- Rotate a 32-bit word (a `Nat` below `2 ^ 32`) left by `n` bits. -/
def rotl32 (n w : Nat) : Nat :=
  ((w <<< n) ||| (w >>> (32 - n))) % 4294967296

/-- Big-endian 32-bit word from four bytes. -/
def beWord (b0 b1 b2 b3 : Nat) : Nat :=
  b0 * 16777216 + b1 * 65536 + b2 * 256 + b3

/-- Big-endian byte decomposition of a 32-bit word. -/
def word32beBytes (w : Nat) : List Nat :=
  [w / 16777216 % 256, w / 65536 % 256, w / 256 % 256, w % 256]

/-- Big-endian byte decomposition of a 64-bit word. -/
def word64beBytes (n : Nat) : List Nat :=
  (List.range 8).map (fun i => n / 2 ^ (8 * (7 - i)) % 256)

/-- SHA-1 message padding: append `0x80`, zero bytes up to 56 mod 64, then
the 64-bit big-endian bit length. -/
def sha1Pad (msg : List Nat) : List Nat :=
  msg ++ [128] ++ List.replicate ((119 - msg.length % 64) % 64) 0
    ++ word64beBytes (msg.length * 8)

/-- Split a (padded) message into 64-byte blocks. -/
def chunks64 (l : List Nat) : List (List Nat) :=
  (List.range (l.length / 64)).map (fun i => (l.drop (64 * i)).take 64)

/-- The 80-entry SHA-1 message schedule of one block. -/
def sha1Words (block : List Nat) : Array Nat :=
  let w0 := (((List.range 16).map (fun i =>
    beWord (block.getD (4 * i) 0) (block.getD (4 * i + 1) 0)
      (block.getD (4 * i + 2) 0) (block.getD (4 * i + 3) 0)))).toArray
  (List.range 64).foldl (fun w _ =>
    let t := w.size
    w.push (rotl32 1 (((w.getD (t - 3) 0) ^^^ (w.getD (t - 8) 0)) ^^^
      ((w.getD (t - 14) 0) ^^^ (w.getD (t - 16) 0))))) w0

/-- The SHA-1 round function. -/
def sha1F (t b c d : Nat) : Nat :=
  if t < 20 then (b &&& c) ||| ((b ^^^ 4294967295) &&& d)
  else if t < 40 then (b ^^^ c) ^^^ d
  else if t < 60 then ((b &&& c) ||| (b &&& d)) ||| (c &&& d)
  else (b ^^^ c) ^^^ d

/-- The SHA-1 round constants. -/
def sha1K (t : Nat) : Nat :=
  if t < 20 then 1518500249
  else if t < 40 then 1859775393
  else if t < 60 then 2400959708
  else 3395469782

/-- The SHA-1 chaining state. -/
structure Sha1State where
  h0 : Nat
  h1 : Nat
  h2 : Nat
  h3 : Nat
  h4 : Nat
deriving DecidableEq, Repr

/-- SHA-1 compression of one 64-byte block. -/
def sha1Compress (st : Sha1State) (block : List Nat) : Sha1State :=
  let w := sha1Words block
  let final := (List.range 80).foldl (fun acc t =>
    let a := acc.1
    let b := acc.2.1
    let c := acc.2.2.1
    let d := acc.2.2.2.1
    let e := acc.2.2.2.2
    let temp := (rotl32 5 a + sha1F t b c d + e + sha1K t + w.getD t 0) % 4294967296
    (temp, a, rotl32 30 b, c, d)) (st.h0, st.h1, st.h2, st.h3, st.h4)
  { h0 := (st.h0 + final.1) % 4294967296
    h1 := (st.h1 + final.2.1) % 4294967296
    h2 := (st.h2 + final.2.2.1) % 4294967296
    h3 := (st.h3 + final.2.2.2.1) % 4294967296
    h4 := (st.h4 + final.2.2.2.2) % 4294967296 }

/-- The SHA-1 initial state. -/
def sha1Init : Sha1State :=
  { h0 := 1732584193, h1 := 4023233417, h2 := 2562383102,
    h3 := 271733878, h4 := 3285377520 }

/-- SHA-1 of a byte list, as 20 bytes. -/
def sha1 (msg : List Nat) : List Nat :=
  let st := (chunks64 (sha1Pad msg)).foldl sha1Compress sha1Init
  word32beBytes st.h0 ++ word32beBytes st.h1 ++ word32beBytes st.h2
    ++ word32beBytes st.h3 ++ word32beBytes st.h4

/-- The base64 alphabet character at index `i`. -/
def b64Char (i : Nat) : Char :=
  ("ABCDEFGHIJKLMNOPQRSTUVWXYZabcdefghijklmnopqrstuvwxyz0123456789+/".toList).getD
    i (Char.ofNat 65)

/-- Standard base64 encoding of a byte list (with padding). -/
def base64Encode : List Nat → String
  | [] => ""
  | [a] =>
    String.mk [b64Char (a / 4), b64Char (a % 4 * 16), Char.ofNat 61, Char.ofNat 61]
  | [a, b] =>
    String.mk [b64Char (a / 4), b64Char (a % 4 * 16 + b / 16), b64Char (b % 16 * 4),
      Char.ofNat 61]
  | a :: b :: c :: rest =>
    String.mk [b64Char (a / 4), b64Char (a % 4 * 16 + b / 16),
      b64Char (b % 16 * 4 + c / 64), b64Char (c % 64)] ++ base64Encode rest

/-- The code points of a string, used as its ASCII byte representation. -/
def strBytes (s : String) : List Nat :=
  s.toList.map Char.toNat

/-- The WebSocket GUID of RFC 6455. -/
def WEBSOCKET_GUID : String := "258EAFA5-E914-47DA-95CA-C5AB0DC85B11"

/-- Embeds `tungstenite::handshake::derive_accept_key`: the RFC 6455 accept-key
derivation `base64(sha1(key ++ GUID))`. -/
def derive_accept_key (key : String) : String :=
  base64Encode (sha1 (strBytes (key ++ WEBSOCKET_GUID)))

set_option maxRecDepth 100000 in
/-- Sanity check of the SHA-1/base64 implementation against the worked
example of RFC 6455 section 1.3. -/
theorem derive_accept_key_rfc6455_example :
    derive_accept_key "dGhlIHNhbXBsZSBub25jZQ==" = "s3pPLMBiTxaQ9kYGzzhZRbK+xOo=" := by
  decide

/-! ## The relay upgrade endpoint (`RelayService::call_client_conn`) -/

/-- The parts of an HTTP request to the relay path that
`RelayService::call_client_conn` inspects: the `Upgrade`,
`Sec-WebSocket-Key` and `Sec-WebSocket-Version` headers (each `none` when
absent). -/
structure UpgradeRequest where
  upgrade : Option String
  wsKey : Option String
  wsVersion : Option String
deriving DecidableEq, Repr

/-- Embeds `RelayService::call_client_conn` (http_server.rs).  Returns the HTTP
response together with a flag recording whether the connection upgrade
future was spawned (i.e. whether the stream is handed to the relay
protocol).  The response builder starts from the configured headers
`hdrs`; every `.header` call appends a pair. -/
def call_client_conn (hdrs : List (String × String)) (req : UpgradeRequest) :
    HttpResponse × Bool :=
  match req.upgrade.bind Protocol.parse_header with
  | none =>
    ({ status := 400, headers := hdrs, body := "" }, false)
  | some protocol =>
    if protocol = Protocol.websocket then
      match req.wsKey with
      | none => ({ status := 400, headers := hdrs, body := "" }, false)
      | some key =>
        match req.wsVersion with
        | none => ({ status := 400, headers := hdrs, body := "" }, false)
        | some version =>
          if version ≠ SUPPORTED_WEBSOCKET_VERSION then
            ({ status := 400
               headers := hdrs ++ [("Sec-WebSocket-Version", SUPPORTED_WEBSOCKET_VERSION)]
               body := "" }, false)
          else
            ({ status := 101
               headers := hdrs ++ [("Upgrade", Protocol.upgrade_header Protocol.websocket),
                 ("Sec-WebSocket-Accept", derive_accept_key key),
                 ("Connection", "upgrade")]
               body := "switching to websocket protocol" }, true)
    else
      ({ status := 101
         headers := hdrs ++ [("Upgrade", Protocol.upgrade_header protocol)]
         body := "" }, true)

/-! ## Routing (`RelayService::call`, `Inner::not_found_fn`) -/

/-- The three routing outcomes of `RelayService::call`. -/
inductive RouteResult where
  | clientConn
  | handlerRun (method : String) (path : String)
  | notFound
deriving DecidableEq, Repr

/-- The routing decision of `RelayService::call` (http_server.rs): a GET to
the relay path (legacy or current) goes to `call_client_conn`; otherwise a
registered handler for the (method, path) pair runs; otherwise the 404
response is produced.  `handlers` is the key set of the `Handlers` map. -/
def RelayService.call (handlers : List (String × String)) (method path : String) :
    RouteResult :=
  if method = "GET" ∧ (path = LEGACY_RELAY_PATH ∨ path = RELAY_PATH) then
    RouteResult.clientConn
  else if (method, path) ∈ handlers then
    RouteResult.handlerRun method path
  else
    RouteResult.notFound

/-- Embeds `Inner::default_response` (http_server.rs): a response builder seeded
with the configured headers. -/
def default_response (selfHeaders : List (String × String)) : List (String × String) :=
  selfHeaders

/-- Embeds `Inner::not_found_fn` (http_server.rs): appends the configured headers
to the builder it is given (which, as called from `RelayService::call`,
already starts from `default_response`), sets status 404 and the body
`Not Found`. -/
def not_found_fn (selfHeaders res : List (String × String)) : HttpResponse :=
  { status := 404, headers := res ++ selfHeaders, body := "Not Found" }

/-! ## The derper auxiliary handlers (derper.rs) -/

/-- Embeds `NO_CONTENT_CHALLENGE_HEADER` (derper.rs). -/
def NO_CONTENT_CHALLENGE_HEADER : String := "X-Tailscale-Challenge"

/-- Embeds `NO_CONTENT_RESPONSE_HEADER` (derper.rs). -/
def NO_CONTENT_RESPONSE_HEADER : String := "X-Tailscale-Response"

/-- Embeds `ROBOTS_TXT` (derper.rs). -/
def ROBOTS_TXT : String := "User-agent: *\nDisallow: /\n"

/-- Embeds `INDEX` (derper.rs): the static HTML landing page. -/
def INDEX : String :=
  "<html><body>\n<h1>DERP</h1>\n<p>\n  This is an\n  <a href=\"https://iroh.computer/\">Iroh</a> DERP\n  server.\n</p>\n"

/-- Embeds `TLS_HEADERS` (derper.rs): response headers added when TLS is active. -/
def TLS_HEADERS : List (String × String) :=
  [("Strict-Transport-Security", "max-age=63072000; includeSubDomains"),
   ("Content-Security-Policy",
    "default-src \x27none\x27; frame-ancestors \x27none\x27; form-action \x27none\x27; base-uri \x27self\x27; block-all-mixed-content; plugin-types \x27none\x27")]

/-- Embeds `is_challenge_char` (derper.rs): ASCII lowercase, uppercase, digit, or
one of `.` (code 46), `-` (code 45), `_` (code 95). -/
def is_challenge_char (c : Char) : Bool :=
  c.isLower || c.isUpper || c.isDigit || c.toNat == 46 || c.toNat == 45 || c.toNat == 95

/-- Embeds `http::HeaderValue::to_str`: succeeds exactly when every byte is
visible ASCII (32..126), yielding the corresponding string. -/
def header_value_to_str (bs : List Nat) : Option String :=
  if bs.all (fun b => 32 ≤ b && b ≤ 126) then
    some (String.mk (bs.map Char.ofNat))
  else
    none

/-- Embeds `serve_no_content_handler` (derper.rs).  `res0` is the header list of
the response builder handed to the handler; `challenge` is the raw byte
value of the `X-Tailscale-Challenge` header, when present.  The `to_str`
error propagates out of the handler (the `?` operator). -/
def serve_no_content_handler (res0 : List (String × String))
    (challenge : Option (List Nat)) : Except String HttpResponse :=
  match challenge with
  | none => Except.ok { status := 204, headers := res0, body := "" }
  | some ch =>
    if ch.length ≠ 0 ∧ ch.length < 64 ∧ ch.all (fun b => is_challenge_char (Char.ofNat b)) = true then
      match header_value_to_str ch with
      | none => Except.error "header value contains non visible ASCII"
      | some s =>
        Except.ok
          { status := 204
            headers := res0 ++ [(NO_CONTENT_RESPONSE_HEADER, "response " ++ s)]
            body := "" }
    else
      Except.ok { status := 204, headers := res0, body := "" }

/-- Embeds `root_handler` (derper.rs). -/
def root_handler (res : List (String × String)) : HttpResponse :=
  { status := 200
    headers := res ++ [("Content-Type", "text/html; charset=utf-8")]
    body := INDEX }

/-- Embeds `probe_handler` (derper.rs). -/
def probe_handler (res : List (String × String)) : HttpResponse :=
  { status := 200
    headers := res ++ [("Access-Control-Allow-Origin", "*")]
    body := "" }

/-- Embeds `robots_handler` (derper.rs). -/
def robots_handler (res : List (String × String)) : HttpResponse :=
  { status := 200, headers := res, body := ROBOTS_TXT }

/-! ## Client admission (`Inner::accept`, `Inner::relay_connection_handler`) -/

/-- Embeds `ClientInfo` (protos): the client handshake payload whose only field
relevant here is the protocol version. -/
structure ClientInfo where
  version : Nat
deriving DecidableEq, Repr

/-- The dispatcher messages that `Inner::accept` may send into the server
channel.  `CreateClient` carries a `ClientConnConfig`; only its `node_id`
identifies the registered slot, so only it is recorded here. -/
inductive ServerMessage where
  | createClient (nodeId : Nat)
deriving DecidableEq, Repr

/-- The state of the dispatcher's bounded inbound channel as seen by one
send: whether the channel is closed, and for how many seconds the channel
stays at capacity before a slot frees up. -/
structure ChannelState where
  closed : Bool
  waitSecs : Nat
deriving DecidableEq, Repr

/-- Embeds `tokio::sync::mpsc::Sender::send(..).await` as used in `Inner::accept`
(http_server.rs): the send suspends until capacity is available — however
long that takes — and fails only when the channel is closed. -/
def mpsc_send (ch : ChannelState) : Bool :=
  !ch.closed

/-- Modelled from the spec: the send discipline claimed in spec 4.F, a
blocking send with a 5 second timeout, which fails when the channel is
closed or when no capacity frees up within 5 seconds. -/
def spec_send_with_timeout (ch : ChannelState) : Bool :=
  !ch.closed && decide (ch.waitSecs ≤ 5)

/-- Embeds `Inner::accept` (http_server.rs).  The stream wrapping (`Derp` framed
codec or server-role WebSocket, chosen by `protocol`) and the metrics
counters do not affect the admission outcome.  `handshake` is the result
of `recv_client_key` (`none` when it fails); `serverVersion` is
`PROTOCOL_VERSION`.  Returns the result together with the list of
messages delivered to the dispatcher channel. -/
def Inner.accept (_protocol : Protocol) (serverVersion : Nat)
    (handshake : Option (Nat × ClientInfo)) (ch : ChannelState) :
    Except String Unit × List ServerMessage :=
  match handshake with
  | none => (Except.error "unable to receive client information", [])
  | some (clientKey, info) =>
    if info.version ≠ serverVersion then
      (Except.error "unexpected client version", [])
    else if mpsc_send ch then
      (Except.ok (), [ServerMessage.createClient clientKey])
    else
      (Except.error "server channel closed, the server is probably shutdown", [])

/-- Embeds `Inner::relay_connection_handler` (http_server.rs).  `downcast` is the
result of `downcast_upgrade` — `none` when the upgraded stream cannot be
downcast, otherwise the bytes already buffered in the upgraded stream's
read buffer.  Only an empty read buffer reaches `Inner::accept`. -/
def relay_connection_handler (protocol : Protocol) (downcast : Option (List Nat))
    (serverVersion : Nat) (handshake : Option (Nat × ClientInfo)) (ch : ChannelState) :
    Except String Unit × List ServerMessage :=
  match downcast with
  | none => (Except.error "could not downcast the upgraded connection to MaybeTlsStream", [])
  | some read_buf =>
    if read_buf.isEmpty then
      Inner.accept protocol serverVersion handshake ch
    else
      (Except.error "can not deal with buffered data yet", [])

/-! ## The derper gateway composition (derper.rs `main` + http_server.rs) -/

/-- The parts of an incoming HTTP request the gateway inspects. -/
structure GatewayRequest where
  method : String
  path : String
  upgrade : Option String
  wsKey : Option String
  wsVersion : Option String
  challenge : Option (List Nat)
deriving DecidableEq, Repr

/-- derper.rs `main`: the headers configured on the server are
`TLS_HEADERS` when a TLS config is present and empty otherwise. -/
def derper_headers (tls : Bool) : List (String × String) :=
  if tls then TLS_HEADERS else []

/-- derper.rs `main`: the auxiliary (method, path) handlers registered on
the builder; `/generate_204` is registered only when TLS is disabled. -/
def derperHandlerKeys (tls : Bool) : List (String × String) :=
  [("GET", "/"), ("GET", "/index.html"), ("GET", "/derp/probe"), ("GET", "/robots.txt")]
    ++ (if tls then [] else [("GET", "/generate_204")])

/-- One HTTP exchange through the gateway as configured by derper.rs:
`RelayService::call` routes the request; the relay path produces the
`call_client_conn` response, a registered handler runs on a builder seeded
by `default_response`, and everything else gets the 404 from
`Inner::not_found_fn`. -/
def gateway (tls : Bool) (req : GatewayRequest) : Except String HttpResponse :=
  let hdrs := derper_headers tls
  match RelayService.call (derperHandlerKeys tls) req.method req.path with
  | RouteResult.clientConn =>
    Except.ok (call_client_conn hdrs ⟨req.upgrade, req.wsKey, req.wsVersion⟩).1
  | RouteResult.handlerRun _ p =>
    if p = "/" ∨ p = "/index.html" then
      Except.ok (root_handler (default_response hdrs))
    else if p = "/derp/probe" then
      Except.ok (probe_handler (default_response hdrs))
    else if p = "/robots.txt" then
      Except.ok (robots_handler (default_response hdrs))
    else
      serve_no_content_handler (default_response hdrs) req.challenge
  | RouteResult.notFound =>
    Except.ok (not_found_fn hdrs (default_response hdrs))

/-! ## The STUN listener loop (derper.rs `server_stun_listener`) -/

/-- A source address for a STUN request (IPv4): four address bytes and a
port. -/
structure StunAddr where
  ip4 : List Nat
  port : Nat
deriving DecidableEq, Repr

/-- Modelled from the spec: `stun::is` recognises a STUN binding request —
at least a full 20-byte header, the magic cookie `0x2112A442` at offset 4,
method `0x0001` and class `0x00` (together the message type bytes
`0x00 0x01`) (spec 4.H). -/
def stun_is (pkt : List Nat) : Bool :=
  decide (pkt.length ≥ 20) && (pkt.drop 4).take 4 == [33, 18, 164, 66]
    && pkt.take 2 == [0, 1]

/-- Modelled from the spec: the STUN binding success response with an
`XOR-MAPPED-ADDRESS` attribute — type `0x0101`, attribute value the port
XORed with the top 16 bits of the magic cookie and the IPv4 address bytes
XORed with the cookie (spec 4.H). -/
def stun_response (txid : List Nat) (src : StunAddr) : List Nat :=
  let cookie := [33, 18, 164, 66]
  let xport := [(src.port / 256) ^^^ 33, (src.port % 256) ^^^ 18]
  let xaddr := (src.ip4.zip cookie).map (fun p => p.1 ^^^ p.2)
  [1, 1, 0, 12] ++ cookie ++ txid ++ [0, 32, 0, 8, 0, 1] ++ xport ++ xaddr

/-- One observable event of the STUN listener loop: a receive error, or a
datagram from a source address together with whether the subsequent
`send_to` of a reply (if any) would succeed. -/
inductive LoopEvent where
  | recvError
  | datagram (pkt : List Nat) (src : StunAddr) (sendOk : Bool)
deriving DecidableEq, Repr

/-- One iteration of `server_stun_listener` (derper.rs), abstracted over
the `stun::parse_binding_request` outcome (`parse`, returning the
transaction id or `none` on a parse error).  Returns the reply sent, if
any, and whether the loop keeps serving (the loop body has no exit path:
receive, parse and send failures are logged and the loop continues). -/
def server_stun_listener_iter (parse : List Nat → Option (List Nat))
    (ev : LoopEvent) : Option (List Nat) × Bool :=
  match ev with
  | LoopEvent.recvError => (none, true)
  | LoopEvent.datagram pkt src _sendOk =>
    if stun_is pkt = false then
      (none, true)
    else
      match parse pkt with
      | none => (none, true)
      | some txid => (some (stun_response txid src), true)

/-! ## The signed-packet stores (iroh-dns-server) -/

/-- Embeds `pkarr::SignedPacket` as far as the stores are concerned: the packet's
public key (`PublicKeyBytes::from_signed_packet`) and its timestamp, which
decides `more_recent_than`. -/
structure SignedPacket where
  key : Nat
  timestamp : Nat
deriving DecidableEq, Repr

/-- Embeds `pkarr::SignedPacket::more_recent_than`: strictly newer timestamp. -/
def SignedPacket.more_recent_than (a b : SignedPacket) : Bool :=
  decide (b.timestamp < a.timestamp)

/-- The contents of a key-value packet store (`DashMap` or moka cache),
as an association list with at most one entry per key. -/
def PacketStore : Type := List (Nat × SignedPacket)

/-- Map insert: replaces the entry for the key, or appends a new entry. -/
def storeInsert (s : List (Nat × SignedPacket)) (k : Nat) (p : SignedPacket) :
    List (Nat × SignedPacket) :=
  match s with
  | [] => [(k, p)]
  | (k2, p2) :: rest =>
    if k2 = k then (k, p) :: rest else (k2, p2) :: storeInsert rest k p

/-- Embeds `SignedPacketStore::upsert` (signed_packets.rs, the DashMap store): if
an existing packet under the same key is more recent, keep the store and
return `false`; otherwise insert the new packet and return `true` (the
`replaced` flag only selects which metrics counter is incremented). -/
def SignedPacketStore.upsert (s : List (Nat × SignedPacket)) (packet : SignedPacket) :
    List (Nat × SignedPacket) × Bool :=
  let key := packet.key
  match s.lookup key with
  | some existing =>
    if existing.more_recent_than packet then
      (s, false)
    else
      (storeInsert s key packet, true)
  | none => (storeInsert s key packet, true)

/-- Embeds `MokaStore::upsert` (moka.rs): the same decision procedure over the
moka cache (its time-to-live expiry is a function of wall-clock time and
is not part of the per-operation semantics modelled here). -/
def MokaStore.upsert (s : List (Nat × SignedPacket)) (packet : SignedPacket) :
    List (Nat × SignedPacket) × Bool :=
  let key := packet.key
  match s.lookup key with
  | some existing =>
    if existing.more_recent_than packet then
      (s, false)
    else
      (storeInsert s key packet, true)
  | none => (storeInsert s key packet, true)

/-! ## Theorems -/

/-- Claim C1: for every client handshake on an upgraded stream, if the
received `ClientInfo` version differs from the server's
`PROTOCOL_VERSION`, `Inner::accept` returns an error (closing the
connection) and no `CreateClient` message is sent to the dispatcher, so no
connection slot is registered for that client's key. -/
theorem C1_version_mismatch_rejected (p : Protocol) (sv k : Nat) (info : ClientInfo)
    (ch : ChannelState) (h : info.version ≠ sv) :
    Inner.accept p sv (some (k, info)) ch =
      (Except.error "unexpected client version", []) := by
  simp [Inner.accept, h]

/-- Witness for C1 at a concrete input: client version 1, server version 2. -/
theorem C1_version_mismatch_rejected_witness :
    Inner.accept Protocol.relay 2 (some (5, ⟨1⟩)) ⟨false, 0⟩ =
      (Except.error "unexpected client version", []) :=
  C1_version_mismatch_rejected Protocol.relay 2 5 ⟨1⟩ ⟨false, 0⟩ (by decide)

/-- Counterexample for claim C2 as stated: the registration send in
`Inner::accept` is `tokio::sync::mpsc::Sender::send(..).await`, which is
not a blocking send with a 5 second timeout — with the channel open but at
capacity for 6 seconds, a 5 second timeout send fails, yet the code's send
succeeds and `Inner::accept` returns `Ok`. -/
theorem C2_send_timeout_counterexample :
    mpsc_send ⟨false, 6⟩ = true ∧ spec_send_with_timeout ⟨false, 6⟩ = false ∧
    Inner.accept Protocol.relay 1 (some (7, ⟨1⟩)) ⟨false, 6⟩ =
      (Except.ok (), [ServerMessage.createClient 7]) :=
  ⟨rfl, rfl, rfl⟩

/-- Claim C2 (amended): the registration a connection handler sends into
the dispatcher's inbound channel uses an awaiting send with no timeout —
it succeeds no matter how long the channel stays at capacity, and fails
only when the channel is closed; a failed send makes `Inner::accept`
return an error so the offending connection is closed. -/
theorem C2_registration_send_no_timeout (p : Protocol) (sv k w : Nat) (info : ClientInfo)
    (h : info.version = sv) :
    (∀ wait : Nat, Inner.accept p sv (some (k, info)) ⟨false, wait⟩ =
      (Except.ok (), [ServerMessage.createClient k])) ∧
    Inner.accept p sv (some (k, info)) ⟨true, w⟩ =
      (Except.error "server channel closed, the server is probably shutdown", []) := by
  constructor
  · intro wait
    simp [Inner.accept, h, mpsc_send]
  · simp [Inner.accept, h, mpsc_send]

/-- Witness for the amended C2: a registration that had to wait 3600
seconds still succeeds. -/
theorem C2_registration_send_no_timeout_witness :
    Inner.accept Protocol.relay 1 (some (7, ⟨1⟩)) ⟨false, 3600⟩ =
      (Except.ok (), [ServerMessage.createClient 7]) :=
  (C2_registration_send_no_timeout Protocol.relay 1 7 0 ⟨1⟩ rfl).1 3600

/-- Claim C8: a GET to the relay path whose `Upgrade` header is absent or
names a protocol other than `derp` or `websocket` gets a 400 Bad Request
with an empty body, and no upgrade is performed. -/
theorem C8_unknown_upgrade_400 (hdrs : List (String × String)) (up k v : Option String)
    (h : ∀ s, up = some s → s ≠ "derp" ∧ s ≠ "websocket") :
    call_client_conn hdrs ⟨up, k, v⟩ =
      ({ status := 400, headers := hdrs, body := "" }, false) := by
  cases up with
  | none => rfl
  | some s =>
    obtain ⟨h1, h2⟩ := h s rfl
    simp [call_client_conn, Protocol.parse_header, h1, h2]

/-- Witness for C8: an `Upgrade: h2c` request is answered 400. -/
theorem C8_unknown_upgrade_400_witness :
    call_client_conn [] ⟨some "h2c", none, none⟩ =
      ({ status := 400, headers := [], body := "" }, false) :=
  C8_unknown_upgrade_400 [] (some "h2c") none none
    (by intro s hs; injection hs with h; subst h; exact ⟨by decide, by decide⟩)

/-- Claim C9: if any client bytes are already buffered in the upgraded
stream, `Inner::relay_connection_handler` rejects the connection with an
error and the stream never reaches `Inner::accept`; the stream is accepted
(handed to `Inner::accept`) only when the upgrade read buffer is empty. -/
theorem C9_buffered_data_rejected (p : Protocol) (buf : List Nat) (sv : Nat)
    (hs : Option (Nat × ClientInfo)) (ch : ChannelState) :
    (buf ≠ [] → relay_connection_handler p (some buf) sv hs ch =
      (Except.error "can not deal with buffered data yet", [])) ∧
    (buf = [] → relay_connection_handler p (some buf) sv hs ch =
      Inner.accept p sv hs ch) := by
  constructor
  · intro h
    simp [relay_connection_handler, h]
  · intro h
    subst h
    rfl

/-- Witness for C9: one buffered byte makes the handler fail. -/
theorem C9_buffered_data_rejected_witness :
    relay_connection_handler Protocol.relay (some [1]) 1 none ⟨false, 0⟩ =
      (Except.error "can not deal with buffered data yet", []) :=
  (C9_buffered_data_rejected Protocol.relay [1] 1 none ⟨false, 0⟩).1 (by decide)

/-- Claim C5: the gateway routes exactly as follows — a GET whose path is
`/relay` or `/derp` goes to the relay upgrade handler (both alias to the
same handler, `call_client_conn`); otherwise a handler registered for the
(method, path) pair runs; otherwise the response is 404 Not Found. -/
theorem C5_routing (handlers hdrs : List (String × String)) (m p : String) :
    (RelayService.call handlers m p = RouteResult.clientConn ↔
      m = "GET" ∧ (p = "/derp" ∨ p = "/relay")) ∧
    (¬ (m = "GET" ∧ (p = "/derp" ∨ p = "/relay")) → (m, p) ∈ handlers →
      RelayService.call handlers m p = RouteResult.handlerRun m p) ∧
    (¬ (m = "GET" ∧ (p = "/derp" ∨ p = "/relay")) → (m, p) ∉ handlers →
      RelayService.call handlers m p = RouteResult.notFound) ∧
    (not_found_fn hdrs (default_response hdrs)).status = 404 ∧
    (not_found_fn hdrs (default_response hdrs)).body = "Not Found" := by
  refine ⟨?_, ?_, ?_, rfl, rfl⟩
  · by_cases hc : m = "GET" ∧ (p = "/derp" ∨ p = "/relay")
    · simp [RelayService.call, LEGACY_RELAY_PATH, RELAY_PATH, hc]
    · simp only [RelayService.call, LEGACY_RELAY_PATH, RELAY_PATH, if_neg hc]
      constructor
      · intro h
        split at h <;> simp_all
      · intro h
        exact absurd h hc
  · intro hc hmem
    simp [RelayService.call, LEGACY_RELAY_PATH, RELAY_PATH, hc, hmem]
  · intro hc hmem
    simp [RelayService.call, LEGACY_RELAY_PATH, RELAY_PATH, hc, hmem]

/-- Witness for C5: `GET /derp` routes to the relay handler, `GET /x` with
no handler registered routes to the 404 response. -/
theorem C5_routing_witness :
    RelayService.call [("GET", "/robots.txt")] "GET" "/derp" = RouteResult.clientConn ∧
    RelayService.call [("GET", "/robots.txt")] "GET" "/x" = RouteResult.notFound :=
  ⟨(C5_routing [("GET", "/robots.txt")] [] "GET" "/derp").1.mpr ⟨rfl, Or.inl rfl⟩,
   (C5_routing [("GET", "/robots.txt")] [] "GET" "/x").2.2.1 (by decide) (by decide)⟩

/-- Claim C6: a datagram that is not a STUN binding request (rejected by
`stun::is` or by `parse_binding_request`) gets no reply, and no
per-datagram failure — receive error, parse error, or send error —
terminates the listener loop: every iteration continues serving. -/
theorem C6_stun_loop_robust (parse : List Nat → Option (List Nat)) (ev : LoopEvent) :
    (server_stun_listener_iter parse ev).2 = true ∧
    (∀ pkt src sendOk, ev = LoopEvent.datagram pkt src sendOk →
      (stun_is pkt = false ∨ parse pkt = none) →
      (server_stun_listener_iter parse ev).1 = none) := by
  constructor
  · cases ev with
    | recvError => rfl
    | datagram pkt src sendOk =>
      simp only [server_stun_listener_iter]
      split
      · rfl
      · split <;> rfl
  · rintro pkt src sendOk rfl hor
    simp only [server_stun_listener_iter]
    cases hor with
    | inl h => rw [if_pos h]
    | inr h =>
      split
      · rfl
      · rw [h]

/-- Witness for C6: a non-STUN datagram produces no reply and the loop
continues; a receive error also leaves the loop running. -/
theorem C6_stun_loop_robust_witness :
    (server_stun_listener_iter (fun _ => none)
      (LoopEvent.datagram [1, 2, 3] ⟨[127, 0, 0, 1], 3478⟩ false)).1 = none ∧
    (server_stun_listener_iter (fun _ => none) LoopEvent.recvError).2 = true :=
  ⟨(C6_stun_loop_robust (fun _ => none)
      (LoopEvent.datagram [1, 2, 3] ⟨[127, 0, 0, 1], 3478⟩ false)).2
      [1, 2, 3] ⟨[127, 0, 0, 1], 3478⟩ false rfl (Or.inl (by decide)),
   (C6_stun_loop_robust (fun _ => none) LoopEvent.recvError).1⟩

/-- Claim C10: for both signed-packet stores, `upsert(packet)` returns
`Ok(false)` and leaves the store unchanged exactly when an existing packet
under the same key is more recent than the new one; in every other case it
stores the new packet under that key and returns `Ok(true)` — and the
DashMap-based and Moka-based implementations compute identical results and
store states for the same operation (the Moka time-to-live expiry is a
wall-clock effect outside these semantics). -/
theorem C10_upsert_stores_agree (s : List (Nat × SignedPacket)) (packet : SignedPacket) :
    SignedPacketStore.upsert s packet = MokaStore.upsert s packet ∧
    ((SignedPacketStore.upsert s packet).2 = false ↔
      ∃ existing, s.lookup packet.key = some existing ∧
        existing.more_recent_than packet = true) ∧
    ((SignedPacketStore.upsert s packet).2 = false →
      (SignedPacketStore.upsert s packet).1 = s) ∧
    ((SignedPacketStore.upsert s packet).2 = true →
      (SignedPacketStore.upsert s packet).1 = storeInsert s packet.key packet) := by
  refine ⟨rfl, ?_, ?_, ?_⟩ <;>
    unfold SignedPacketStore.upsert <;>
    cases hl : s.lookup packet.key with
  | none => simp [hl]
  | some existing =>
    by_cases hmr : existing.more_recent_than packet = true <;>
      simp_all [hl, hmr]

set_option maxRecDepth 4000 in
/-- For bytes, `is_challenge_char` accepts exactly the claim's character
class `[A-Za-z0-9._-]` (digits 48..57, uppercase 65..90, lowercase
97..122, and the code points 46, 45, 95). -/
theorem is_challenge_char_byte_iff :
    ∀ b, b < 256 → (is_challenge_char (Char.ofNat b) = true ↔
      (48 ≤ b ∧ b ≤ 57) ∨ (65 ≤ b ∧ b ≤ 90) ∨ (97 ≤ b ∧ b ≤ 122) ∨
        b = 46 ∨ b = 45 ∨ b = 95) := by
  decide

/-- Modelled from the spec: the challenge token condition of spec 6 — the
`X-Tailscale-Challenge` value is nonempty, shorter than 64 bytes, and all
its bytes are in the class `[A-Za-z0-9._-]`.  Stated in the claim's own
vocabulary for comparison against `serve_no_content_handler`. -/
def spec_challenge_ok (ch : List Nat) : Prop :=
  ch ≠ [] ∧ ch.length < 64 ∧ ∀ b ∈ ch,
    (48 ≤ b ∧ b ≤ 57) ∨ (65 ≤ b ∧ b ≤ 90) ∨ (97 ≤ b ∧ b ≤ 122) ∨
      b = 46 ∨ b = 45 ∨ b = 95

instance (ch : List Nat) : Decidable (spec_challenge_ok ch) := by
  unfold spec_challenge_ok
  infer_instance

/-- Claim C4: every `GET /generate_204` request is answered 204 with an
empty body; the response carries `X-Tailscale-Response: response <token>`
exactly when the request carries an `X-Tailscale-Challenge` value that is
nonempty, shorter than 64 bytes and made of characters in
`[A-Za-z0-9._-]`; otherwise no such header is added (the header list stays
exactly the builder's). -/
theorem C4_generate_204 (res0 : List (String × String)) (challenge : Option (List Nat)) :
    (challenge = none → serve_no_content_handler res0 challenge =
      Except.ok { status := 204, headers := res0, body := "" }) ∧
    (∀ ch, challenge = some ch → (∀ b ∈ ch, b < 256) →
      (spec_challenge_ok ch → serve_no_content_handler res0 challenge =
        Except.ok
          { status := 204
            headers := res0 ++ [(NO_CONTENT_RESPONSE_HEADER,
              "response " ++ String.mk (ch.map Char.ofNat))]
            body := "" }) ∧
      (¬ spec_challenge_ok ch → serve_no_content_handler res0 challenge =
        Except.ok { status := 204, headers := res0, body := "" })) := by
  constructor
  · rintro rfl
    rfl
  · rintro ch rfl hb
    constructor
    · intro hok
      obtain ⟨hne, hlen, hcls⟩ := hok
      have hcond : ch.length ≠ 0 ∧ ch.length < 64 ∧
          ch.all (fun b => is_challenge_char (Char.ofNat b)) = true := by
        refine ⟨fun h => hne (List.length_eq_zero.mp h), hlen, ?_⟩
        rw [List.all_eq_true]
        intro b hbch
        exact (is_challenge_char_byte_iff b (hb b hbch)).mpr (hcls b hbch)
      have hvis : header_value_to_str ch = some (String.mk (ch.map Char.ofNat)) := by
        unfold header_value_to_str
        rw [if_pos]
        rw [List.all_eq_true]
        intro b hbch
        rcases hcls b hbch with ⟨h1, h2⟩ | ⟨h1, h2⟩ | ⟨h1, h2⟩ | rfl | rfl | rfl <;>
          simp only [Bool.and_eq_true, decide_eq_true_eq] <;> omega
      simp only [serve_no_content_handler, if_pos hcond, hvis]
    · intro hnok
      have hcond : ¬ (ch.length ≠ 0 ∧ ch.length < 64 ∧
          ch.all (fun b => is_challenge_char (Char.ofNat b)) = true) := by
        intro hcond
        apply hnok
        refine ⟨fun h => hcond.1 (by simp [h]), hcond.2.1, ?_⟩
        intro b hbch
        exact (is_challenge_char_byte_iff b (hb b hbch)).mp
          (List.all_eq_true.mp hcond.2.2 b hbch)
      simp only [serve_no_content_handler, if_neg hcond]

/-- Witness for C4: the challenge `abc` (bytes 97 98 99) is echoed as
`response abc`; the challenge `a!` (containing byte 33) is not echoed. -/
theorem C4_generate_204_witness :
    serve_no_content_handler [] (some [97, 98, 99]) = Except.ok
      { status := 204
        headers := [] ++ [(NO_CONTENT_RESPONSE_HEADER,
          "response " ++ String.mk ([97, 98, 99].map Char.ofNat))]
        body := "" } ∧
    serve_no_content_handler [] (some [97, 33]) = Except.ok
      { status := 204, headers := [], body := "" } :=
  ⟨((C4_generate_204 [] (some [97, 98, 99])).2 [97, 98, 99] rfl (by decide)).1 (by decide),
   ((C4_generate_204 [] (some [97, 33])).2 [97, 33] rfl (by decide)).2 (by decide)⟩

/-- Claim C3: for a GET to the relay path requesting the websocket
protocol — if `Sec-WebSocket-Key` or `Sec-WebSocket-Version` is missing
the response is 400; if `Sec-WebSocket-Version` is present (with the key)
but not `13`, the response is 400 and advertises the supported version;
otherwise the response is 101 Switching Protocols whose
`Sec-WebSocket-Accept` is the RFC 6455 derivation
`base64(sha1(key ++ GUID))` of the client's key. -/
theorem C3_websocket_handshake (hdrs : List (String × String)) (k v : Option String) :
    ((k = none ∨ v = none) → call_client_conn hdrs ⟨some "websocket", k, v⟩ =
      ({ status := 400, headers := hdrs, body := "" }, false)) ∧
    (∀ kk vv, k = some kk → v = some vv → vv ≠ "13" →
      call_client_conn hdrs ⟨some "websocket", k, v⟩ =
        ({ status := 400
           headers := hdrs ++ [("Sec-WebSocket-Version", "13")]
           body := "" }, false)) ∧
    (∀ kk, k = some kk → v = some "13" →
      call_client_conn hdrs ⟨some "websocket", k, v⟩ =
        ({ status := 101
           headers := hdrs ++ [("Upgrade", "websocket"),
             ("Sec-WebSocket-Accept", base64Encode (sha1 (strBytes (kk ++ WEBSOCKET_GUID)))),
             ("Connection", "upgrade")]
           body := "switching to websocket protocol" }, true)) := by
  refine ⟨?_, ?_, ?_⟩
  · rintro (rfl | rfl)
    · rfl
    · cases k <;> rfl
  · rintro kk vv rfl rfl hvv
    simp [call_client_conn, Protocol.parse_header, SUPPORTED_WEBSOCKET_VERSION, hvv]
  · rintro kk rfl rfl
    simp [call_client_conn, Protocol.parse_header, SUPPORTED_WEBSOCKET_VERSION,
      Protocol.upgrade_header, derive_accept_key]

/-- Witness for C3 at the RFC 6455 sample key with version 13. -/
theorem C3_websocket_handshake_witness :
    call_client_conn [] ⟨some "websocket", some "dGhlIHNhbXBsZSBub25jZQ==", some "13"⟩ =
      ({ status := 101
         headers := [] ++ [("Upgrade", "websocket"),
           ("Sec-WebSocket-Accept",
             base64Encode (sha1 (strBytes ("dGhlIHNhbXBsZSBub25jZQ==" ++ WEBSOCKET_GUID)))),
           ("Connection", "upgrade")]
         body := "switching to websocket protocol" }, true) :=
  (C3_websocket_handshake [] (some "dGhlIHNhbXBsZSBub25jZQ==") (some "13")).2.2
    "dGhlIHNhbXBsZSBub25jZQ==" rfl rfl

/-- Every response of `call_client_conn` starts from the configured header
list and appends only websocket-handshake headers. -/
theorem call_client_conn_headers_shape (hdrs : List (String × String)) (u : UpgradeRequest) :
    ∃ extra, (call_client_conn hdrs u).1.headers = hdrs ++ extra ∧
      ∀ hp ∈ extra, hp.1 = "Sec-WebSocket-Version" ∨ hp.1 = "Upgrade" ∨
        hp.1 = "Sec-WebSocket-Accept" ∨ hp.1 = "Connection" := by
  cases hbind : u.upgrade.bind Protocol.parse_header with
  | none =>
    refine ⟨[], ?_, ?_⟩ <;> simp [call_client_conn, hbind]
  | some protocol =>
    by_cases hws : protocol = Protocol.websocket
    · subst hws
      cases hk : u.wsKey with
      | none =>
        refine ⟨[], ?_, ?_⟩ <;> simp [call_client_conn, hbind, hk]
      | some key =>
        cases hv : u.wsVersion with
        | none =>
          refine ⟨[], ?_, ?_⟩ <;> simp [call_client_conn, hbind, hk, hv]
        | some version =>
          by_cases hv13 : version = SUPPORTED_WEBSOCKET_VERSION
          · refine ⟨[("Upgrade", Protocol.upgrade_header Protocol.websocket),
              ("Sec-WebSocket-Accept", derive_accept_key key),
              ("Connection", "upgrade")], ?_, ?_⟩ <;>
              simp [call_client_conn, hbind, hk, hv, hv13]
          · refine ⟨[("Sec-WebSocket-Version", SUPPORTED_WEBSOCKET_VERSION)], ?_, ?_⟩ <;>
              simp [call_client_conn, hbind, hk, hv, hv13]
    · refine ⟨[("Upgrade", Protocol.upgrade_header protocol)], ?_, ?_⟩ <;>
        simp [call_client_conn, hbind, hws]

/-- Every `Ok` response of `serve_no_content_handler` keeps the builder's
headers, possibly extended by a single `X-Tailscale-Response` entry. -/
theorem serve_no_content_headers_shape (res0 : List (String × String))
    (c : Option (List Nat)) (resp : HttpResponse)
    (h : serve_no_content_handler res0 c = Except.ok resp) :
    resp.headers = res0 ∨
      ∃ s, resp.headers = res0 ++ [(NO_CONTENT_RESPONSE_HEADER, "response " ++ s)] := by
  cases c with
  | none =>
    injection h with h
    subst h
    left
    rfl
  | some ch =>
    dsimp only [serve_no_content_handler] at h
    split at h
    · cases hstr : header_value_to_str ch with
      | none =>
        rw [hstr] at h
        cases h
      | some s =>
        rw [hstr] at h
        injection h with h
        subst h
        right
        exact ⟨s, rfl⟩
    · injection h with h
      subst h
      left
      rfl

/-- Every `Ok` response of the derper-configured gateway starts from the
configured header list (`TLS_HEADERS` or empty) and appends only entries
that are themselves configured headers (the 404 path adds them twice) or
have one of the handler-specific names. -/
theorem gateway_headers_shape (tls : Bool) (req : GatewayRequest) (resp : HttpResponse)
    (h : gateway tls req = Except.ok resp) :
    ∃ extra, resp.headers = derper_headers tls ++ extra ∧
      ∀ hp ∈ extra, hp ∈ derper_headers tls ∨ hp.1 = "Sec-WebSocket-Version" ∨
        hp.1 = "Upgrade" ∨ hp.1 = "Sec-WebSocket-Accept" ∨ hp.1 = "Connection" ∨
        hp.1 = "Content-Type" ∨ hp.1 = "Access-Control-Allow-Origin" ∨
        hp.1 = "X-Tailscale-Response" := by
  unfold gateway at h
  cases hroute : RelayService.call (derperHandlerKeys tls) req.method req.path with
  | clientConn =>
    rw [hroute] at h
    dsimp only at h
    obtain ⟨extra, he, hnames⟩ :=
      call_client_conn_headers_shape (derper_headers tls) ⟨req.upgrade, req.wsKey, req.wsVersion⟩
    injection h with h
    subst h
    refine ⟨extra, he, fun hp hm => ?_⟩
    rcases hnames hp hm with h1 | h1 | h1 | h1 <;> tauto
  | handlerRun m p =>
    rw [hroute] at h
    dsimp only at h
    by_cases hroot : p = "/" ∨ p = "/index.html"
    · rw [if_pos hroot] at h
      injection h with h
      subst h
      refine ⟨[("Content-Type", "text/html; charset=utf-8")], rfl, ?_⟩
      intro hp hm
      rw [List.mem_singleton] at hm
      subst hm
      simp
    · rw [if_neg hroot] at h
      by_cases hprobe : p = "/derp/probe"
      · rw [if_pos hprobe] at h
        injection h with h
        subst h
        refine ⟨[("Access-Control-Allow-Origin", "*")], rfl, ?_⟩
        intro hp hm
        rw [List.mem_singleton] at hm
        subst hm
        simp
      · rw [if_neg hprobe] at h
        by_cases hrob : p = "/robots.txt"
        · rw [if_pos hrob] at h
          injection h with h
          subst h
          exact ⟨[], by simp [robots_handler, default_response], by simp⟩
        · rw [if_neg hrob] at h
          rcases serve_no_content_headers_shape _ _ _ h with hh | ⟨s, hh⟩
          · exact ⟨[], by simp [hh, default_response], by simp⟩
          · refine ⟨[(NO_CONTENT_RESPONSE_HEADER, "response " ++ s)],
              by simp [hh, default_response], ?_⟩
            intro hp hm
            rw [List.mem_singleton] at hm
            subst hm
            simp [NO_CONTENT_RESPONSE_HEADER]
  | notFound =>
    rw [hroute] at h
    dsimp only at h
    injection h with h
    subst h
    refine ⟨derper_headers tls, rfl, fun hp hm => Or.inl hm⟩

/-- Claim C7: with TLS active every gateway response (relay-upgrade
responses, auxiliary-handler responses, and 404s) carries the
`Strict-Transport-Security` and `Content-Security-Policy` headers of
`TLS_HEADERS`; with TLS disabled no response carries either header. -/
theorem C7_tls_security_headers (req : GatewayRequest) :
    (∀ resp, gateway true req = Except.ok resp →
      ("Strict-Transport-Security", "max-age=63072000; includeSubDomains") ∈ resp.headers ∧
      ("Content-Security-Policy",
        "default-src \x27none\x27; frame-ancestors \x27none\x27; form-action \x27none\x27; base-uri \x27self\x27; block-all-mixed-content; plugin-types \x27none\x27")
        ∈ resp.headers) ∧
    (∀ resp, gateway false req = Except.ok resp →
      ∀ hp ∈ resp.headers, hp.1 ≠ "Strict-Transport-Security" ∧
        hp.1 ≠ "Content-Security-Policy") := by
  constructor
  · intro resp h
    obtain ⟨extra, he, _⟩ := gateway_headers_shape true req resp h
    rw [he]
    constructor
    · exact List.mem_append_left _ (by simp [derper_headers, TLS_HEADERS])
    · exact List.mem_append_left _ (by simp [derper_headers, TLS_HEADERS])
  · intro resp h hp hmem
    obtain ⟨extra, he, hnames⟩ := gateway_headers_shape false req resp h
    rw [he] at hmem
    rw [List.mem_append] at hmem
    rcases hmem with hmem | hmem
    · simp [derper_headers] at hmem
    · rcases hnames hp hmem with h1 | h1 | h1 | h1 | h1 | h1 | h1 | h1
      · simp [derper_headers] at h1
      all_goals rw [h1]
      all_goals exact ⟨by decide, by decide⟩

/-- Witness for C7: the `GET /robots.txt` response carries the
Strict-Transport-Security header with TLS active, and with TLS disabled
none of its headers is a security header. -/
theorem C7_tls_security_headers_witness :
    ("Strict-Transport-Security", "max-age=63072000; includeSubDomains") ∈
      (robots_handler (default_response (derper_headers true))).headers ∧
    (∀ hp ∈ (robots_handler (default_response (derper_headers false))).headers,
      hp.1 ≠ "Strict-Transport-Security" ∧ hp.1 ≠ "Content-Security-Policy") :=
  ⟨((C7_tls_security_headers ⟨"GET", "/robots.txt", none, none, none, none⟩).1
      (robots_handler (default_response (derper_headers true))) rfl).1,
   fun hp hm =>
    (C7_tls_security_headers ⟨"GET", "/robots.txt", none, none, none, none⟩).2
      (robots_handler (default_response (derper_headers false))) rfl hp hm⟩

/-- Witness for C10: a stored packet with timestamp 5 under key 1 beats an
upsert with timestamp 3 — both stores return false and stay unchanged. -/
theorem C10_upsert_stores_agree_witness :
    (SignedPacketStore.upsert [(1, ⟨1, 5⟩)] ⟨1, 3⟩).2 = false ∧
    (SignedPacketStore.upsert [(1, ⟨1, 5⟩)] ⟨1, 3⟩).1 = [(1, ⟨1, 5⟩)] ∧
    SignedPacketStore.upsert [(1, ⟨1, 5⟩)] ⟨1, 3⟩ = MokaStore.upsert [(1, ⟨1, 5⟩)] ⟨1, 3⟩ :=
  have h := C10_upsert_stores_agree [(1, ⟨1, 5⟩)] ⟨1, 3⟩
  ⟨h.2.1.mpr ⟨⟨1, 5⟩, rfl, rfl⟩, h.2.2.1 (h.2.1.mpr ⟨⟨1, 5⟩, rfl, rfl⟩), h.1⟩
